import Mathlib

/-
Verification of the declaration registry in `src/builder.js`
(taskcluster-lib-api): the `APIBuilder` constructor, the
`APIBuilder.prototype.declare` entry-registration operation and the
`APIBuilder.prototype.build` composition operation, shallowly embedded
as executable Lean functions.

JavaScript idioms are made explicit:
  * `assert(x, msg)` / `throw` become an `Except String` result;
  * the mutable receiver (`this`) becomes explicit state passing:
    `declare` returns the post-call builder state together with the
    outcome, so "throws" leave the state it had reached;
  * JS truthiness on the string-valued options is modelled on
    `Option String` (absent / empty string are falsy);
  * the duck-typed validator values (RegExp vs function vs other JS
    values) become the tagged type `JSVal`;
  * lodash `_.defaults(a, b)` on plain objects becomes `lodashDefaults`
    on association lists (keys of `a` win, missing keys filled from `b`).
-/

namespace TcApi

/-- JS values that can appear in the `params` / `query` / `errorCodes`
mappings.  RegExp and functions are the two validator kinds accepted by
`declare`; functions are identified by an opaque id. -/
inductive JSVal where
  | regexp (src : String)
  | func (fid : Nat)
  | str (s : String)
  | num (n : Int)
  | boolean (b : Bool)
  | null
deriving DecidableEq

/-- Embeds `value instanceof RegExp || value instanceof Function`
(builder.js line 157). -/
def isRegExpOrFunction : JSVal → Bool
  | .regexp _ => true
  | .func _ => true
  | _ => false

/-- Embeds `typeof value === 'number'` (builder.js line 42). -/
def isNumber : JSVal → Bool
  | .num _ => true
  | _ => false

/-- JS truthiness of an optional string option: `undefined`/absent and
the empty string are falsy. -/
def truthyStr : Option String → Bool
  | none => false
  | some s => s != ""

/-- Key lookup in an association list (JS object property access). -/
def lookupKey (m : List (String × α)) (k : String) : Option α :=
  (m.find? (fun p => p.1 == k)).map (fun p => p.2)

/-- lodash `_.defaults({}, primary, fallback)`: all pairs of `primary`,
plus the pairs of `fallback` whose key is not set in `primary`. -/
def lodashDefaults (primary fallback : List (String × α)) : List (String × α) :=
  primary ++ fallback.filter (fun p => (lookupKey primary p.1).isNone)

def isLowerAZ (c : Char) : Bool := 'a' ≤ c && c ≤ 'z'

def isUpperAZ (c : Char) : Bool := 'A' ≤ c && c ≤ 'Z'

def isDigit09 (c : Char) : Bool := '0' ≤ c && c ≤ '9'

def isNameTail (c : Char) : Bool := isLowerAZ c || isDigit09 c || c == '_' || c == '-'

/-- Embeds `/^[a-z][a-z0-9_-]*$/.test(s)` (builder.js line 31). -/
def nameRegexTest (s : String) : Bool :=
  match s.toList with
  | [] => false
  | c :: cs => isLowerAZ c && cs.all isNameTail

/-- Embeds `/^v[0-9]+$/.test(s)` (builder.js line 32). -/
def versionRegexTest (s : String) : Bool :=
  match s.toList with
  | 'v' :: cs => !cs.isEmpty && cs.all isDigit09
  | _ => false

/-- Embeds `/[A-Z][A-Za-z0-9]*/.test(key)` (builder.js line 41).  The
regex is NOT anchored, and `[A-Za-z0-9]*` can match the empty string, so
the test succeeds exactly when the key contains at least one uppercase
ASCII letter anywhere. -/
def errorCodeKeyTest (s : String) : Bool := s.toList.any isUpperAZ

/-- Follows the spec's words, for comparison with `errorCodeKeyTest`:
full-string match of the anchored pattern `[A-Z][A-Za-z0-9]*` that §3 of
the spec prescribes for error-code identifiers. -/
def specAnchoredErrorKey (s : String) : Bool :=
  match s.toList with
  | [] => false
  | c :: cs => isUpperAZ c && cs.all (fun d => isUpperAZ d || isLowerAZ d || isDigit09 d)

/-- Scope templates passed as `options.scopes`: either a DNF
array-of-arrays of scope strings or a richer template object understood
only by the external validator. -/
inductive ScopeVal where
  | dnf (rows : List (List String))
  | template (tag : String)
deriving DecidableEq

/-- Raw options accepted by the `APIBuilder` constructor.  Fields the
constructor never reads (they are passed through unchanged) are not
modelled.  `Option` marks properties that may be absent. -/
structure BuilderOptions where
  schemaPrefix : Option String
  title : Option String
  description : Option String
  name : Option String
  version : Option String
  params : Option (List (String × JSVal))
  context : Option (List String)
  errorCodes : Option (List (String × JSVal))
deriving DecidableEq

/-- Modelled from the spec: the built-in default error-code table
`errors.ERROR_CODES` lives in `./errors`, which is not under `src/`.
The spec (§3) only fixes its shape: identifier keys and integer HTTP
status values; this table realises that shape. -/
def ERROR_CODES : List (String × JSVal) := [
  ("InputError", .num 400),
  ("InputValidationError", .num 400),
  ("InputTooLarge", .num 400),
  ("InvalidSignatureError", .num 401),
  ("AuthenticationFailed", .num 401),
  ("InsufficientScopes", .num 403),
  ("ResourceNotFound", .num 404),
  ("RequestConflict", .num 409),
  ("ResourceExpired", .num 410),
  ("InternalServerError", .num 500)]

/-- The merged error-code table the constructor validates and stores:
`_.defaults({}, options.errorCodes || {}, errors.ERROR_CODES)`
(builder.js line 34). -/
def mergedErrorCodes (o : BuilderOptions) : List (String × JSVal) :=
  lodashDefaults (o.errorCodes.getD []) ERROR_CODES

/-- One pair of the merged table passes both asserts of the
`_.forEach` loop (builder.js lines 40-43). -/
def errorCodePairOk (p : String × JSVal) : Bool :=
  errorCodeKeyTest p.1 && isNumber p.2

/-- One stored API entry: the options object after `declare` has
defaulted `stability`, merged `params`, defaulted `query` and attached
the handler.  Handlers are identified by an opaque id. -/
structure Entry where
  name : String
  method : String
  route : String
  title : String
  description : String
  stability : String
  params : List (String × JSVal)
  query : List (String × JSVal)
  scopes : Option ScopeVal
  handler : Nat
deriving DecidableEq

/-- The builder state built by the `APIBuilder` constructor
(builder.js lines 44-51). -/
structure APIBuilderState where
  name : String
  version : String
  title : String
  description : String
  params : List (String × JSVal)
  context : List String
  errorCodes : List (String × JSVal)
  entries : List Entry
deriving DecidableEq

/-- Embeds `assert(options[key], ...)` for a required string option
followed by use of its value: fails when the option is absent or falsy
(empty). -/
def requireOpt (o : Option String) (key : String) : Except String String :=
  match o with
  | none => .error ("Option '" ++ key ++ "' must be provided")
  | some s =>
    match s == "" with
    | true => .error ("Option '" ++ key ++ "' must be provided")
    | false => .ok s

/-- The `APIBuilder` constructor (builder.js lines 26-52): rejects
`schemaPrefix`, requires `title`, `description`, `name`, `version`,
checks the `name` and `version` patterns, merges and validates the
error-code table, then builds the state with empty `entries`. -/
def APIBuilder (o : BuilderOptions) : Except String APIBuilderState :=
  match truthyStr o.schemaPrefix with
  | true => .error "schemaPrefix is no longer allowed!"
  | false =>
  match requireOpt o.title "title" with
  | .error m => .error m
  | .ok title =>
  match requireOpt o.description "description" with
  | .error m => .error m
  | .ok description =>
  match requireOpt o.name "name" with
  | .error m => .error m
  | .ok name =>
  match requireOpt o.version "version" with
  | .error m => .error m
  | .ok version =>
  match nameRegexTest name with
  | false => .error ("api name is not valid: " ++ name)
  | true =>
  match versionRegexTest version with
  | false => .error ("api version is not valid: " ++ version)
  | true =>
  match (mergedErrorCodes o).find? (fun p => !errorCodePairOk p) with
  | some p =>
    .error (match errorCodeKeyTest p.1 with
            | true => "Expected HTTP status code to be int"
            | false => "Invalid error code: " ++ p.1)
  | none =>
    .ok { name := name, version := version, title := title, description := description,
          params := o.params.getD [], context := o.context.getD [],
          errorCodes := mergedErrorCodes o, entries := [] }

/-- `_.values(stability)` (builder.js lines 55-94). -/
def STABILITY_LEVELS : List String := ["deprecated", "experimental", "stable"]

/-- Raw options accepted by `declare`.  The documentation-only fields
`input`, `output`, `skipInputValidation`, `skipOutputValidation`,
`noPublish`, `cleanPayload` are carried through unread by the code under
verification and are not modelled.  `deferAuth` is truthiness-checked
only, so it is a `Bool`. -/
structure EntryOptions where
  name : Option String
  method : Option String
  route : Option String
  title : Option String
  description : Option String
  stability : Option String
  params : Option (List (String × JSVal))
  query : Option (List (String × JSVal))
  scopes : Option ScopeVal
  deferAuth : Bool
deriving DecidableEq

/-- `if (!options.stability) options.stability = stability.experimental`
(builder.js lines 148-150): absent and falsy (empty) stability default
to `"experimental"`. -/
def defaultedStability (o : Option String) : String :=
  match o with
  | none => "experimental"
  | some s => if s == "" then "experimental" else s

/-- The validation part of `declare` (builder.js lines 144-166): the
required-field asserts, stability defaulting and check, params merge,
query defaulting and check, the `deferAuth` guard, the scope-template
check, and the handler attachment, producing the finished entry.
`scopeValidate` stands for the external
`ScopeExpressionTemplate.validate` capability. -/
def validateEntry (b : APIBuilderState) (scopeValidate : ScopeVal → Bool)
    (o : EntryOptions) (handler : Nat) : Except String Entry :=
  match requireOpt o.name "name" with
  | .error m => .error m
  | .ok name =>
  match requireOpt o.method "method" with
  | .error m => .error m
  | .ok method =>
  match requireOpt o.route "route" with
  | .error m => .error m
  | .ok route =>
  match requireOpt o.title "title" with
  | .error m => .error m
  | .ok title =>
  match requireOpt o.description "description" with
  | .error m => .error m
  | .ok description =>
  match STABILITY_LEVELS.contains (defaultedStability o.stability) with
  | false => .error "options.stability must be a valid stability-level"
  | true =>
  match (o.query.getD []).find? (fun p => !isRegExpOrFunction p.2) with
  | some p => .error ("query." ++ p.1 ++ " must be a RegExp or a function!")
  | none =>
  match o.deferAuth with
  | true => .error "deferAuth is deprecated!"
  | false =>
  match (match o.scopes with
         | some sc => !scopeValidate sc
         | none => false) with
  | true => .error "Invalid scope expression template"
  | false =>
    .ok { name := name, method := method, route := route,
          title := title, description := description,
          stability := defaultedStability o.stability,
          params := lodashDefaults (o.params.getD []) b.params,
          query := o.query.getD [],
          scopes := o.scopes, handler := handler }

/-- `APIBuilder.prototype.declare` (builder.js lines 143-174): validates
the options, rejects a duplicate `(route, method)` pair, rejects a
duplicate `name`, and only then pushes the entry.  The first component
of the result is the builder state after the call returns or throws; the
second is the outcome. -/
def declare (b : APIBuilderState) (scopeValidate : ScopeVal → Bool)
    (o : EntryOptions) (handler : Nat) : APIBuilderState × Except String Unit :=
  match validateEntry b scopeValidate o handler with
  | .error m => (b, .error m)
  | .ok entry =>
    match (b.entries.filter (fun e => e.route == entry.route && e.method == entry.method)).length with
    | Nat.succ _ => (b, .error "Identical route and method declaration.")
    | 0 =>
    match b.entries.any (fun e => e.name == entry.name) with
    | true => (b, .error "This function has already been declared.")
    | false =>
      ({ b with entries := b.entries ++ [entry] }, .ok ())

/-- Modelled from the spec: the runtime Service object produced by the
external `API` constructor (`./api` is not under `src/`).  Only what the
spec needs is modelled: the service carries the builder it was composed
from, and its async `publish()` operation settles with `publishOutcome`. -/
structure Service where
  api : APIBuilderState
  publishOutcome : Except String Unit

/-- Options for `build`.  The runtime fields (`rootUrl`, `validator`,
`nonceManager`, …) are passed through to the external constructor
unchanged and are not modelled; only the `publish` flag is read by the
code under verification. -/
structure BuildOptions where
  publish : Bool
deriving DecidableEq

/-- Result of a `build` call: the settled outcome of the returned
promise, plus how many times the service's `publish()` was invoked. -/
structure BuildOutcome where
  result : Except String Service
  publishCalls : Nat

/-- `APIBuilder.prototype.build` (builder.js lines 202-209): attaches
the builder to the options (`options.api = this`), constructs the
service, awaits `service.publish()` exactly once when `options.publish`
is truthy (a rejection propagating as the build's rejection), and
resolves with the service.  `publishOutcome` stands for what the
external service's `publish()` settles with. -/
def build (b : APIBuilderState) (o : BuildOptions)
    (publishOutcome : Except String Unit) : BuildOutcome :=
  let service : Service := { api := b, publishOutcome := publishOutcome }
  match o.publish with
  | true =>
    match service.publishOutcome with
    | .ok _ => { result := .ok service, publishCalls := 1 }
    | .error e => { result := .error e, publishCalls := 1 }
  | false => { result := .ok service, publishCalls := 0 }

/- A store-passing rendering of `declare`, faithful to the in-place
mutation of the caller's options object: options objects live on a heap
of cells addressed by index, the builder's `entries` holds addresses,
and `declare` overwrites fields of the passed cell exactly where
builder.js assigns to `options.…`. -/

/-- One mutable options object (heap cell) as `declare` sees it:
`handler` is absent until builder.js line 166 attaches it. -/
structure EntryObj where
  name : Option String
  method : Option String
  route : Option String
  title : Option String
  description : Option String
  stability : Option String
  params : Option (List (String × JSVal))
  query : Option (List (String × JSVal))
  scopes : Option ScopeVal
  deferAuth : Bool
  handler : Option Nat
deriving DecidableEq

/-- The builder's mutable state in the store-passing rendering:
`entries` is the sequence of addresses of the registered options
objects. -/
structure BuilderH where
  params : List (String × JSVal)
  entries : List Nat
deriving DecidableEq

/-- Store-passing `APIBuilder.prototype.declare` (builder.js lines
143-174).  The options object at address `addr` is mutated in place —
`options.stability`, `options.params`, `options.query` and
`options.handler` are overwritten on the heap exactly where the source
assigns them — and on success `addr` itself is appended to `entries`.
The result carries the builder and heap as left behind by the call. -/
def declareH (b : BuilderH) (heap : List EntryObj) (scopeValidate : ScopeVal → Bool)
    (addr : Nat) (handler : Nat) : (BuilderH × List EntryObj) × Except String Unit :=
  match heap[addr]? with
  | none => ((b, heap), .error "invalid object reference")
  | some o =>
  match truthyStr o.name with
  | false => ((b, heap), .error "Option 'name' must be provided")
  | true =>
  match truthyStr o.method with
  | false => ((b, heap), .error "Option 'method' must be provided")
  | true =>
  match truthyStr o.route with
  | false => ((b, heap), .error "Option 'route' must be provided")
  | true =>
  match truthyStr o.title with
  | false => ((b, heap), .error "Option 'title' must be provided")
  | true =>
  match truthyStr o.description with
  | false => ((b, heap), .error "Option 'description' must be provided")
  | true =>
  let o1 := match truthyStr o.stability with
    | false => { o with stability := some "experimental" }
    | true => o
  let heap1 := heap.set addr o1
  match STABILITY_LEVELS.contains (o1.stability.getD "") with
  | false => ((b, heap1), .error "options.stability must be a valid stability-level")
  | true =>
  let o2 := { o1 with params := some (lodashDefaults (o1.params.getD []) b.params) }
  let o3 := { o2 with query := some (o2.query.getD []) }
  let heap3 := heap.set addr o3
  match (o3.query.getD []).find? (fun p => !isRegExpOrFunction p.2) with
  | some p => ((b, heap3), .error ("query." ++ p.1 ++ " must be a RegExp or a function!"))
  | none =>
  match o3.deferAuth with
  | true => ((b, heap3), .error "deferAuth is deprecated!")
  | false =>
  match (match o3.scopes with
         | some sc => !scopeValidate sc
         | none => false) with
  | true => ((b, heap3), .error "Invalid scope expression template")
  | false =>
  let o4 := { o3 with handler := some handler }
  let heap4 := heap.set addr o4
  match ((b.entries.filterMap (fun a => heap4[a]?)).filter
           (fun e => e.route == o4.route && e.method == o4.method)).length with
  | Nat.succ _ => ((b, heap4), .error "Identical route and method declaration.")
  | 0 =>
  match (b.entries.filterMap (fun a => heap4[a]?)).any (fun e => e.name == o4.name) with
  | true => ((b, heap4), .error "This function has already been declared.")
  | false =>
    (({ b with entries := b.entries ++ [addr] }, heap4), .ok ())

/-- Reads the registered entry objects out of the heap, in registry
order: what any consumer of the registry dereferences. -/
def readEntries (b : BuilderH) (heap : List EntryObj) : List (Option EntryObj) :=
  b.entries.map (fun a => heap[a]?)

/-- Discriminates a failed result (used to state binder-free facts
about concrete calls). -/
def isErrorResult : Except String α → Bool
  | .ok _ => false
  | .error _ => true

/- Concrete sample inputs used by the witnesses below. -/

/-- Scope-template validator that accepts everything (a possible
behaviour of the external `ScopeExpressionTemplate.validate`). -/
def svAll : ScopeVal → Bool := fun _ => true

/-- A valid set of construction options. -/
def sampleBuilderOptions : BuilderOptions :=
  { schemaPrefix := none, title := some "Test API", description := some "A test API",
    name := some "test", version := some "v1",
    params := none, context := none, errorCodes := none }

/-- The builder state that `APIBuilder sampleBuilderOptions` produces. -/
def sampleBuilt : APIBuilderState :=
  { name := "test", version := "v1", title := "Test API", description := "A test API",
    params := [], context := [], errorCodes := ERROR_CODES, entries := [] }

/-- A builder with an empty registry. -/
def b0 : APIBuilderState := sampleBuilt

/-- An already-registered entry (as stored after a successful declare). -/
def widgetEntry : Entry :=
  { name := "getWidget", method := "get", route := "/widgets/:id",
    title := "Get Widget", description := "Fetch one widget",
    stability := "experimental", params := [], query := [], scopes := none, handler := 1 }

/-- A builder whose registry already holds `widgetEntry`. -/
def b1 : APIBuilderState := { b0 with entries := [widgetEntry] }

/-- Valid declare options for a fresh entry. -/
def oGood : EntryOptions :=
  { name := some "listWidgets", method := some "get", route := some "/widgets",
    title := some "List Widgets", description := some "List them",
    stability := none, params := none, query := none, scopes := none, deferAuth := false }

/-- Declare options that collide with `widgetEntry` on route and method. -/
def oDupRoute : EntryOptions :=
  { oGood with name := some "otherName", route := some "/widgets/:id", method := some "get" }

/-- Declare options that collide with `widgetEntry` on name only. -/
def oDupName : EntryOptions :=
  { oGood with name := some "getWidget", route := some "/widgets", method := some "post" }

/-- Declare options with the falsy (empty-string) stability. -/
def oEmptyStab : EntryOptions := { oGood with stability := some "" }

/-- Declare options with a stability outside the enumeration. -/
def oBeta : EntryOptions := { oGood with stability := some "beta" }

/-- Declare options with a query validator that is neither a RegExp nor
a function. -/
def oBadQuery : EntryOptions :=
  { oGood with query := some [("limit", JSVal.str "not-a-function-or-regex")] }

/-- Construction options whose errorCodes key `"xOk"` fails the
anchored pattern of the spec but passes the code's unanchored regex. -/
def oUnanchored : BuilderOptions :=
  { sampleBuilderOptions with errorCodes := some [("xOk", JSVal.num 200)] }

/-- Construction options whose errorCodes key contains no uppercase
letter, failing even the code's unanchored regex. -/
def oNoUpper : BuilderOptions :=
  { sampleBuilderOptions with errorCodes := some [("bad", JSVal.num 200)] }

/-- Construction options with an invalid name. -/
def oBadName : BuilderOptions := { sampleBuilderOptions with name := some "Bad Name" }

/-- Construction options with an invalid version. -/
def oBadVersion : BuilderOptions := { sampleBuilderOptions with version := some "1" }

/-- A heap cell holding valid declare options (for the store-passing
model). -/
def cellGood : EntryObj :=
  { name := some "listWidgets", method := some "get", route := some "/widgets",
    title := some "List Widgets", description := some "List them",
    stability := none, params := none, query := none, scopes := none,
    deferAuth := false, handler := none }

/-- A one-cell heap. -/
def heap0 : List EntryObj := [cellGood]

/-- A store-passing builder with an empty registry. -/
def bh0 : BuilderH := { params := [], entries := [] }

/-- The in-place mutation a successful `declareH` performs on the
caller's options object, summarised: `stability` defaulted, `params`
merged with the builder fallback, `query` defaulted, `handler`
attached; all other fields untouched. -/
def mutatedCell (b : BuilderH) (o : EntryObj) (handler : Nat) : EntryObj :=
  { o with stability := some (defaultedStability o.stability),
           params := some (lodashDefaults (o.params.getD []) b.params),
           query := some (o.query.getD []),
           handler := some handler }

/-- An externally mutated replacement object (used by the C10 witness
to observe aliasing through the registry). -/
def cellMut : EntryObj := { cellGood with title := some "changed later" }

/- Inversion lemmas: what must have been true of the inputs when an
operation succeeded. -/

theorem requireOpt_ok {o : Option String} {key s : String}
    (h : requireOpt o key = .ok s) : o = some s ∧ s ≠ "" := by
  cases o with
  | none => exact absurd h (by simp [requireOpt])
  | some t =>
    cases ht : t == "" with
    | true => simp [requireOpt, ht] at h
    | false =>
      simp only [requireOpt, ht, Except.ok.injEq] at h
      subst h
      exact ⟨rfl, by simpa using ht⟩

theorem validateEntry_ok {b : APIBuilderState} {sv : ScopeVal → Bool}
    {o : EntryOptions} {hdl : Nat} {e : Entry}
    (hv : validateEntry b sv o hdl = .ok e) :
    o.name = some e.name ∧ o.method = some e.method ∧ o.route = some e.route ∧
    o.title = some e.title ∧ o.description = some e.description ∧
    e.stability = defaultedStability o.stability ∧
    STABILITY_LEVELS.contains e.stability = true ∧
    e.params = lodashDefaults (o.params.getD []) b.params ∧
    e.query = o.query.getD [] ∧
    (∀ p ∈ o.query.getD [], isRegExpOrFunction p.2 = true) ∧
    o.deferAuth = false ∧
    e.scopes = o.scopes ∧
    e.handler = hdl := by
  unfold validateEntry at hv
  cases hname : requireOpt o.name "name" with
  | error m => simp [hname] at hv
  | ok name =>
  simp only [hname] at hv
  cases hmeth : requireOpt o.method "method" with
  | error m => simp [hmeth] at hv
  | ok method =>
  simp only [hmeth] at hv
  cases hroute : requireOpt o.route "route" with
  | error m => simp [hroute] at hv
  | ok route =>
  simp only [hroute] at hv
  cases htitle : requireOpt o.title "title" with
  | error m => simp [htitle] at hv
  | ok title =>
  simp only [htitle] at hv
  cases hdesc : requireOpt o.description "description" with
  | error m => simp [hdesc] at hv
  | ok description =>
  simp only [hdesc] at hv
  cases hstab : STABILITY_LEVELS.contains (defaultedStability o.stability) with
  | false => simp only [hstab] at hv; exact absurd hv (by simp)
  | true =>
  simp only [hstab] at hv
  cases hq : (o.query.getD []).find? (fun p => !isRegExpOrFunction p.2) with
  | some p => simp only [hq] at hv; exact absurd hv (by simp)
  | none =>
  simp only [hq] at hv
  cases hdef : o.deferAuth with
  | true => simp only [hdef] at hv; exact absurd hv (by simp)
  | false =>
  simp only [hdef] at hv
  cases hsc : (match o.scopes with
               | some sc => !sv sc
               | none => false) with
  | true => simp only [hsc] at hv; exact absurd hv (by simp)
  | false =>
  simp only [hsc, Except.ok.injEq] at hv
  subst hv
  refine ⟨(requireOpt_ok hname).1, (requireOpt_ok hmeth).1, (requireOpt_ok hroute).1,
    (requireOpt_ok htitle).1, (requireOpt_ok hdesc).1, rfl, hstab, rfl, rfl, ?_, rfl, rfl, rfl⟩
  intro p hp
  have hnp := List.find?_eq_none.mp hq p hp
  simpa using hnp

theorem defaultedStability_of_falsy {x : Option String} (h : truthyStr x = false) :
    defaultedStability x = "experimental" := by
  cases x with
  | none => rfl
  | some s =>
    simp [truthyStr] at h
    simp [defaultedStability, h]

theorem defaultedStability_of_truthy {x : Option String} (h : truthyStr x = true) :
    x = some (defaultedStability x) := by
  cases x with
  | none => simp [truthyStr] at h
  | some s =>
    simp [truthyStr] at h
    simp [defaultedStability, h]

theorem declare_spec (b : APIBuilderState) (sv : ScopeVal → Bool)
    (o : EntryOptions) (hdl : Nat) :
    (∃ m, declare b sv o hdl = (b, .error m)) ∨
    (∃ e, validateEntry b sv o hdl = .ok e ∧
      (b.entries.filter (fun x => x.route == e.route && x.method == e.method)).length = 0 ∧
      b.entries.any (fun x => x.name == e.name) = false ∧
      declare b sv o hdl = ({ b with entries := b.entries ++ [e] }, .ok ())) := by
  cases hv : validateEntry b sv o hdl with
  | error m => exact .inl ⟨m, by simp only [declare, hv]⟩
  | ok e =>
    cases hf : (b.entries.filter (fun x => x.route == e.route && x.method == e.method)).length with
    | succ n =>
      exact .inl ⟨"Identical route and method declaration.", by simp only [declare, hv, hf]⟩
    | zero =>
      cases ha : b.entries.any (fun x => x.name == e.name) with
      | true =>
        exact .inl ⟨"This function has already been declared.", by simp only [declare, hv, hf, ha]⟩
      | false =>
        exact .inr ⟨e, rfl, hf, ha, by simp only [declare, hv, hf, ha]⟩

theorem APIBuilder_ok {o : BuilderOptions} {b : APIBuilderState}
    (hb : APIBuilder o = .ok b) :
    o.name = some b.name ∧ o.version = some b.version ∧
    o.title = some b.title ∧ o.description = some b.description ∧
    nameRegexTest b.name = true ∧ versionRegexTest b.version = true ∧
    b.params = o.params.getD [] ∧ b.context = o.context.getD [] ∧
    b.errorCodes = mergedErrorCodes o ∧
    (∀ p ∈ mergedErrorCodes o, errorCodePairOk p = true) ∧
    b.entries = [] := by
  unfold APIBuilder at hb
  cases hpre : truthyStr o.schemaPrefix with
  | true => simp only [hpre] at hb; exact absurd hb (by simp)
  | false =>
  simp only [hpre] at hb
  cases htitle : requireOpt o.title "title" with
  | error m => simp only [htitle] at hb; exact absurd hb (by simp)
  | ok title =>
  simp only [htitle] at hb
  cases hdesc : requireOpt o.description "description" with
  | error m => simp only [hdesc] at hb; exact absurd hb (by simp)
  | ok description =>
  simp only [hdesc] at hb
  cases hname : requireOpt o.name "name" with
  | error m => simp only [hname] at hb; exact absurd hb (by simp)
  | ok name =>
  simp only [hname] at hb
  cases hver : requireOpt o.version "version" with
  | error m => simp only [hver] at hb; exact absurd hb (by simp)
  | ok version =>
  simp only [hver] at hb
  cases hnre : nameRegexTest name with
  | false => simp only [hnre] at hb; exact absurd hb (by simp)
  | true =>
  simp only [hnre] at hb
  cases hvre : versionRegexTest version with
  | false => simp only [hvre] at hb; exact absurd hb (by simp)
  | true =>
  simp only [hvre] at hb
  cases hfind : (mergedErrorCodes o).find? (fun p => !errorCodePairOk p) with
  | some p => simp only [hfind] at hb; exact absurd hb (by simp)
  | none =>
  simp only [hfind, Except.ok.injEq] at hb
  subst hb
  refine ⟨(requireOpt_ok hname).1, (requireOpt_ok hver).1, (requireOpt_ok htitle).1,
    (requireOpt_ok hdesc).1, hnre, hvre, rfl, rfl, rfl, ?_, rfl⟩
  intro p hp
  have hnp := List.find?_eq_none.mp hfind p hp
  simpa using hnp

/- Claim theorems. -/

/-- C1: a `declare` call mutates the `entries` sequence only if it
succeeds: on any failure `entries` is exactly what it was before the
call, and on success exactly one entry is appended at the end. -/
theorem declare_entries_atomic (b : APIBuilderState) (sv : ScopeVal → Bool)
    (o : EntryOptions) (hdl : Nat) :
    (∀ m, (declare b sv o hdl).2 = .error m → (declare b sv o hdl).1.entries = b.entries) ∧
    ((declare b sv o hdl).2 = .ok () →
      ∃ e, (declare b sv o hdl).1.entries = b.entries ++ [e]) := by
  rcases declare_spec b sv o hdl with ⟨m, hm⟩ | ⟨e, _, _, _, hd⟩
  · refine ⟨fun m' _ => by rw [hm], fun hcon => ?_⟩
    rw [hm] at hcon
    exact absurd hcon (by simp)
  · refine ⟨fun m' hm' => ?_, fun _ => ⟨e, by rw [hd]⟩⟩
    rw [hd] at hm'
    exact absurd hm' (by simp)

/-- Witness for C1: a failing call (missing `name`) leaves `entries`
unchanged, and a successful call appends one entry. -/
theorem declare_entries_atomic_w :
    (declare b1 svAll { oGood with name := none } 7).1.entries = b1.entries ∧
    (declare b1 svAll oGood 7).1.entries.length = b1.entries.length + 1 := by
  refine ⟨(declare_entries_atomic b1 svAll { oGood with name := none } 7).1
      "Option 'name' must be provided" (by rfl), ?_⟩
  obtain ⟨e, he⟩ := (declare_entries_atomic b1 svAll oGood 7).2 (by rfl)
  rw [he]
  simp

/-- C3: a `declare` call whose options carry the same `route` and the
same `method` as an already-registered entry fails, and the length of
`entries` is unchanged. -/
theorem declare_dup_route_method_rejected (b : APIBuilderState) (sv : ScopeVal → Bool)
    (o : EntryOptions) (hdl : Nat) (e : Entry)
    (he : e ∈ b.entries) (hr : o.route = some e.route) (hm : o.method = some e.method) :
    (∃ msg, (declare b sv o hdl).2 = .error msg) ∧
    (declare b sv o hdl).1.entries.length = b.entries.length := by
  rcases declare_spec b sv o hdl with ⟨m, he'⟩ | ⟨en, hv, hf, _, hd⟩
  · rw [he']
    exact ⟨⟨m, rfl⟩, rfl⟩
  · exfalso
    obtain ⟨_, hmo, hro, _⟩ := validateEntry_ok hv
    rw [hr] at hro
    rw [hm] at hmo
    injection hro with hro
    injection hmo with hmo
    have hmem : e ∈ b.entries.filter (fun x => x.route == en.route && x.method == en.method) :=
      List.mem_filter.mpr ⟨he, by rw [← hro, ← hmo]; simp⟩
    rw [List.length_eq_zero.mp hf] at hmem
    exact absurd hmem (List.not_mem_nil e)

/-- Witness for C3: re-declaring `GET /widgets/:id` against a builder
already holding it fails and keeps the registry length. -/
theorem declare_dup_route_method_rejected_w :
    isErrorResult (declare b1 svAll oDupRoute 3).2 = true ∧
    (declare b1 svAll oDupRoute 3).1.entries.length = b1.entries.length := by
  obtain ⟨⟨msg, hmsg⟩, hlen⟩ :=
    declare_dup_route_method_rejected b1 svAll oDupRoute 3 widgetEntry (by decide) rfl rfl
  exact ⟨by rw [hmsg]; rfl, hlen⟩

/-- C4: a `declare` call whose options carry the same `name` as an
already-registered entry (even with a different route and method) fails
and leaves the whole builder state unchanged. -/
theorem declare_dup_name_rejected (b : APIBuilderState) (sv : ScopeVal → Bool)
    (o : EntryOptions) (hdl : Nat) (e : Entry)
    (he : e ∈ b.entries) (hn : o.name = some e.name) :
    (∃ msg, (declare b sv o hdl).2 = .error msg) ∧
    (declare b sv o hdl).1 = b := by
  rcases declare_spec b sv o hdl with ⟨m, he'⟩ | ⟨en, hv, _, ha, hd⟩
  · rw [he']
    exact ⟨⟨m, rfl⟩, rfl⟩
  · exfalso
    obtain ⟨hno, _⟩ := validateEntry_ok hv
    rw [hn] at hno
    injection hno with hno
    have := List.any_eq_false.mp ha e he
    rw [← hno] at this
    simp at this

/-- Witness for C4: declaring a second entry named `getWidget` under a
different route and method fails and leaves the builder unchanged. -/
theorem declare_dup_name_rejected_w :
    isErrorResult (declare b1 svAll oDupName 3).2 = true ∧
    (declare b1 svAll oDupName 3).1 = b1 := by
  obtain ⟨⟨msg, hmsg⟩, hstate⟩ :=
    declare_dup_name_rejected b1 svAll oDupName 3 widgetEntry (by decide) rfl
  exact ⟨by rw [hmsg]; rfl, hstate⟩

/-- Counterexample to C5 as stated: `stability: ""` is a value outside
the enumeration `{deprecated, experimental, stable}`, yet the call
succeeds — the empty string is JS-falsy, so builder.js line 148 defaults
it to `"experimental"` instead of rejecting it. -/
theorem declare_stability_cex :
    oEmptyStab.stability = some "" ∧
    STABILITY_LEVELS.contains "" = false ∧
    (declare b0 svAll oEmptyStab 1).2 = .ok () ∧
    (declare b0 svAll oEmptyStab 1).1.entries.map (fun e => e.stability) = ["experimental"] :=
  ⟨rfl, rfl, rfl, rfl⟩

/-- C5 amended: every stored entry's stability is in the closed set
`{deprecated, experimental, stable}`; omitted stability is stored as
`"experimental"`; and a declare call whose stability is a present,
non-empty string outside the set (e.g. `"beta"`) fails.  (An
empty-string stability is JS-falsy and is defaulted like an omitted
one rather than rejected.) -/
theorem declare_stability (b : APIBuilderState) (sv : ScopeVal → Bool)
    (o : EntryOptions) (hdl : Nat) :
    ((declare b sv o hdl).2 = .ok () →
      ∃ e, (declare b sv o hdl).1.entries = b.entries ++ [e] ∧
        e.stability ∈ STABILITY_LEVELS ∧
        (o.stability = none → e.stability = "experimental")) ∧
    (∀ s, o.stability = some s → s ≠ "" → STABILITY_LEVELS.contains s = false →
      ∃ m, (declare b sv o hdl).2 = .error m) := by
  constructor
  · intro hok
    rcases declare_spec b sv o hdl with ⟨m, hm⟩ | ⟨e, hv, _, _, hd⟩
    · rw [hm] at hok
      exact absurd hok (by simp)
    · obtain ⟨_, _, _, _, _, hst, hmem, _⟩ := validateEntry_ok hv
      refine ⟨e, by rw [hd], by simpa using hmem, fun hnone => ?_⟩
      rw [hst, hnone]
      rfl
  · intro s hs hne hcf
    rcases declare_spec b sv o hdl with ⟨m, hm⟩ | ⟨e, hv, _, _, hd⟩
    · exact ⟨m, by rw [hm]⟩
    · exfalso
      obtain ⟨_, _, _, _, _, hst, hmem, _⟩ := validateEntry_ok hv
      rw [hst] at hmem
      rw [hs] at hmem
      have : defaultedStability (some s) = s := by
        simp [defaultedStability, beq_eq_false_iff_ne.mpr hne]
      rw [this] at hmem
      rw [hcf] at hmem
      exact absurd hmem (by simp)

/-- Witness for the amended C5: a successful call with omitted
stability stores `"experimental"`, and a call with `stability: "beta"`
fails. -/
theorem declare_stability_w :
    (declare b0 svAll oGood 1).1.entries.length = b0.entries.length + 1 ∧
    isErrorResult (declare b0 svAll oBeta 1).2 = true := by
  obtain ⟨e, hent, hmem, hexp⟩ := (declare_stability b0 svAll oGood 1).1 (by rfl)
  obtain ⟨m, hm⟩ := (declare_stability b0 svAll oBeta 1).2 "beta" rfl (by decide) (by decide)
  exact ⟨by rw [hent]; simp, by rw [hm]; rfl⟩

/-- C6: a query validator value that is neither a RegExp nor a function
makes `declare` fail before anything is appended, and an absent `query`
is stored as the empty mapping. -/
theorem declare_query_validators (b : APIBuilderState) (sv : ScopeVal → Bool)
    (o : EntryOptions) (hdl : Nat) :
    ((∃ k v, (k, v) ∈ o.query.getD [] ∧ isRegExpOrFunction v = false) →
      (∃ m, (declare b sv o hdl).2 = .error m) ∧
      (declare b sv o hdl).1.entries = b.entries) ∧
    (o.query = none → (declare b sv o hdl).2 = .ok () →
      ∃ e, (declare b sv o hdl).1.entries = b.entries ++ [e] ∧ e.query = []) := by
  constructor
  · rintro ⟨k, v, hmem, hbad⟩
    rcases declare_spec b sv o hdl with ⟨m, hm⟩ | ⟨e, hv, _, _, hd⟩
    · rw [hm]
      exact ⟨⟨m, rfl⟩, rfl⟩
    · exfalso
      obtain ⟨_, _, _, _, _, _, _, _, _, hall, _⟩ := validateEntry_ok hv
      have := hall (k, v) hmem
      rw [hbad] at this
      exact absurd this (by simp)
  · intro hnone hok
    rcases declare_spec b sv o hdl with ⟨m, hm⟩ | ⟨e, hv, _, _, hd⟩
    · rw [hm] at hok
      exact absurd hok (by simp)
    · obtain ⟨_, _, _, _, _, _, _, _, hq, _⟩ := validateEntry_ok hv
      refine ⟨e, by rw [hd], ?_⟩
      rw [hq, hnone]
      rfl

/-- Witness for C6: `query: { limit: "not-a-function-or-regex" }` fails
and leaves the registry empty, while an absent query is stored as the
empty mapping. -/
theorem declare_query_validators_w :
    (isErrorResult (declare b0 svAll oBadQuery 1).2 = true ∧
      (declare b0 svAll oBadQuery 1).1.entries = b0.entries) ∧
    (declare b0 svAll oGood 1).1.entries.map (fun e => e.query) = [[]] := by
  obtain ⟨⟨m, hm⟩, hent⟩ := (declare_query_validators b0 svAll oBadQuery 1).1
    ⟨"limit", .str "not-a-function-or-regex", by decide, rfl⟩
  obtain ⟨e, he, hq⟩ := (declare_query_validators b0 svAll oGood 1).2 rfl (by rfl)
  refine ⟨⟨by rw [hm]; rfl, hent⟩, ?_⟩
  rw [he]
  simp [b0, sampleBuilt, hq]

/-- C7: construction fails whenever the `name` option is absent or
fails `[a-z][a-z0-9_-]*` (full match), and whenever the `version`
option is absent or fails `v[0-9]+` (full match). -/
theorem APIBuilder_name_version_patterns (o : BuilderOptions) :
    ((∀ s, o.name = some s → nameRegexTest s = false → ∃ m, APIBuilder o = .error m) ∧
      (o.name = none → ∃ m, APIBuilder o = .error m)) ∧
    ((∀ s, o.version = some s → versionRegexTest s = false → ∃ m, APIBuilder o = .error m) ∧
      (o.version = none → ∃ m, APIBuilder o = .error m)) := by
  have base : ∀ P : Prop, (∀ b, APIBuilder o = .ok b → P) → ¬ P → ∃ m, APIBuilder o = .error m := by
    intro P hP hnP
    cases hA : APIBuilder o with
    | error m => exact ⟨m, rfl⟩
    | ok b => exact absurd (hP b hA) hnP
  refine ⟨⟨fun s hs hbad => ?_, fun hnone => ?_⟩, fun s hs hbad => ?_, fun hnone => ?_⟩
  · cases hA : APIBuilder o with
    | error m => exact ⟨m, rfl⟩
    | ok b =>
      exfalso
      obtain ⟨hn, _, _, _, hnre, _⟩ := APIBuilder_ok hA
      rw [hs] at hn
      injection hn with hn
      rw [← hn] at hnre
      rw [hbad] at hnre
      exact absurd hnre (by simp)
  · cases hA : APIBuilder o with
    | error m => exact ⟨m, rfl⟩
    | ok b =>
      exfalso
      obtain ⟨hn, _⟩ := APIBuilder_ok hA
      rw [hnone] at hn
      exact absurd hn (by simp)
  · cases hA : APIBuilder o with
    | error m => exact ⟨m, rfl⟩
    | ok b =>
      exfalso
      obtain ⟨_, hv, _, _, _, hvre, _⟩ := APIBuilder_ok hA
      rw [hs] at hv
      injection hv with hv
      rw [← hv] at hvre
      rw [hbad] at hvre
      exact absurd hvre (by simp)
  · cases hA : APIBuilder o with
    | error m => exact ⟨m, rfl⟩
    | ok b =>
      exfalso
      obtain ⟨_, hv, _⟩ := APIBuilder_ok hA
      rw [hnone] at hv
      exact absurd hv (by simp)

/-- Witness for C7: `name: "Bad Name"` and `version: "1"` each make
construction fail. -/
theorem APIBuilder_name_version_patterns_w :
    isErrorResult (APIBuilder oBadName) = true ∧
    isErrorResult (APIBuilder oBadVersion) = true := by
  obtain ⟨m1, hm1⟩ := (APIBuilder_name_version_patterns oBadName).1.1 "Bad Name" rfl (by decide)
  obtain ⟨m2, hm2⟩ := (APIBuilder_name_version_patterns oBadVersion).2.1 "1" rfl (by decide)
  exact ⟨by rw [hm1]; rfl, by rw [hm2]; rfl⟩

/-- C9: for every accepted construction-options value, the resulting
builder's `name`, `version`, `title` and `description` equal the
corresponding inputs, and its `entries` sequence is empty. -/
theorem APIBuilder_identity_fields (o : BuilderOptions) (b : APIBuilderState)
    (hb : APIBuilder o = .ok b) :
    o.name = some b.name ∧ o.version = some b.version ∧
    o.title = some b.title ∧ o.description = some b.description ∧
    b.entries = [] := by
  obtain ⟨h1, h2, h3, h4, _, _, _, _, _, _, h5⟩ := APIBuilder_ok hb
  exact ⟨h1, h2, h3, h4, h5⟩

/-- Witness for C9 at a concrete accepted options value. -/
theorem APIBuilder_identity_fields_w :
    sampleBuilderOptions.name = some sampleBuilt.name ∧
    sampleBuilderOptions.version = some sampleBuilt.version ∧
    sampleBuilderOptions.title = some sampleBuilt.title ∧
    sampleBuilderOptions.description = some sampleBuilt.description ∧
    sampleBuilt.entries = [] :=
  APIBuilder_identity_fields sampleBuilderOptions sampleBuilt (by rfl)

/-- Counterexample to C2 as stated: the merged table of `oUnanchored`
contains the pair `("xOk", 200)` whose key fails the anchored pattern
`[A-Z][A-Za-z0-9]*` required by the claim, yet construction succeeds —
builder.js line 41 tests an unanchored regex, which `"xOk"` passes
because it contains an uppercase letter. -/
theorem APIBuilder_errorCodes_cex :
    ("xOk", JSVal.num 200) ∈ mergedErrorCodes oUnanchored ∧
    specAnchoredErrorKey "xOk" = false ∧
    isErrorResult (APIBuilder oUnanchored) = false := by decide

/-- C2 amended: construction fails whenever the merged errorCodes table
(built-in defaults overridden/extended by user entries) contains a pair
whose key fails the code's unanchored pattern `[A-Z][A-Za-z0-9]*` —
i.e. contains no uppercase ASCII letter — or whose value is not a
number; any single invalid pair fails the whole construction. -/
theorem APIBuilder_errorCodes_validated (o : BuilderOptions) (k : String) (v : JSVal)
    (hmem : (k, v) ∈ mergedErrorCodes o) (hbad : errorCodePairOk (k, v) = false) :
    ∃ m, APIBuilder o = .error m := by
  cases hA : APIBuilder o with
  | error m => exact ⟨m, rfl⟩
  | ok b =>
    exfalso
    obtain ⟨_, _, _, _, _, _, _, _, _, hall, _⟩ := APIBuilder_ok hA
    have := hall (k, v) hmem
    rw [hbad] at this
    exact absurd this (by simp)

/-- Witness for the amended C2: a user entry whose key has no uppercase
letter fails construction. -/
theorem APIBuilder_errorCodes_validated_w :
    isErrorResult (APIBuilder oNoUpper) = true := by
  obtain ⟨m, hm⟩ :=
    APIBuilder_errorCodes_validated oNoUpper "bad" (JSVal.num 200) (by decide) (by decide)
  rw [hm]
  rfl

/-- C8: with a truthy `publish` flag, `build` invokes the service's
publish exactly once, resolves with the constructed service only when
publish resolved, and rejects with publish's cause when publish
rejects; with a falsy flag, publish is never invoked and `build`
resolves with the service. -/
theorem build_publish (b : APIBuilderState) (o : BuildOptions)
    (po : Except String Unit) :
    (o.publish = true →
      (build b o po).publishCalls = 1 ∧
      (∀ e, po = .error e → (build b o po).result = .error e) ∧
      (po = .ok () → (build b o po).result = .ok { api := b, publishOutcome := po }) ∧
      (∀ s, (build b o po).result = .ok s → po = .ok ())) ∧
    (o.publish = false →
      (build b o po).publishCalls = 0 ∧
      (build b o po).result = .ok { api := b, publishOutcome := po }) := by
  constructor
  · intro hp
    refine ⟨?_, ?_, ?_, ?_⟩
    · cases po with
      | ok u => simp [build, hp]
      | error e => simp [build, hp]
    · intro e he
      subst he
      simp [build, hp]
    · intro he
      subst he
      simp [build, hp]
    · intro s hs
      cases po with
      | ok u => cases u; rfl
      | error e =>
        exfalso
        simp [build, hp] at hs
  · intro hp
    exact ⟨by simp [build, hp], by simp [build, hp]⟩

/-- Witness for C8: both flag values at a concrete builder and a
concrete rejecting publish outcome. -/
theorem build_publish_w :
    ((build b0 { publish := true } (.error "boom")).publishCalls = 1 ∧
      (build b0 { publish := true } (.error "boom")).result = .error "boom") ∧
    ((build b0 { publish := false } (.error "boom")).publishCalls = 0 ∧
      (build b0 { publish := false } (.error "boom")).result =
        .ok { api := b0, publishOutcome := .error "boom" }) :=
  ⟨⟨((build_publish b0 { publish := true } (.error "boom")).1 rfl).1,
    ((build_publish b0 { publish := true } (.error "boom")).1 rfl).2.1 "boom" rfl⟩,
   (build_publish b0 { publish := false } (.error "boom")).2 rfl⟩

/-- C10: a successful `declareH` call appends to `entries` the address
of the very options object the caller passed; that object has been
mutated in place on the heap — `stability`, `params` and `query`
overwritten with the defaulted/merged values and a `handler` field
attached — and any later external mutation of the object at that
address is what a subsequent read of the appended registry entry
dereferences. -/
theorem declareH_ok_aliasing (b : BuilderH) (heap : List EntryObj) (sv : ScopeVal → Bool)
    (addr handler : Nat)
    (hok : (declareH b heap sv addr handler).2 = .ok ()) :
    ∃ o, heap[addr]? = some o ∧
      (declareH b heap sv addr handler).1.1.entries = b.entries ++ [addr] ∧
      (declareH b heap sv addr handler).1.2 = heap.set addr (mutatedCell b o handler) ∧
      ∀ o' : EntryObj,
        (readEntries (declareH b heap sv addr handler).1.1
          ((declareH b heap sv addr handler).1.2.set addr o')).getLast? = some (some o') := by
  obtain ⟨res, hres⟩ : ∃ r, declareH b heap sv addr handler = r := ⟨_, rfl⟩
  rw [hres] at hok ⊢
  unfold declareH at hres
  cases hcell : heap[addr]? with
  | none => simp only [hcell] at hres; rw [← hres] at hok; simp at hok
  | some o =>
  simp only [hcell] at hres
  cases hn : truthyStr o.name with
  | false => simp only [hn] at hres; rw [← hres] at hok; simp at hok
  | true =>
  simp only [hn] at hres
  cases hm : truthyStr o.method with
  | false => simp only [hm] at hres; rw [← hres] at hok; simp at hok
  | true =>
  simp only [hm] at hres
  cases hr : truthyStr o.route with
  | false => simp only [hr] at hres; rw [← hres] at hok; simp at hok
  | true =>
  simp only [hr] at hres
  cases ht : truthyStr o.title with
  | false => simp only [ht] at hres; rw [← hres] at hok; simp at hok
  | true =>
  simp only [ht] at hres
  cases hde : truthyStr o.description with
  | false => simp only [hde] at hres; rw [← hres] at hok; simp at hok
  | true =>
  simp only [hde] at hres
  cases hts : truthyStr o.stability with
  | false =>
    simp only [hts] at hres
    split at hres
    · rw [← hres] at hok; simp at hok
    split at hres
    · rw [← hres] at hok; simp at hok
    split at hres
    · rw [← hres] at hok; simp at hok
    split at hres
    · rw [← hres] at hok; simp at hok
    split at hres
    · rw [← hres] at hok; simp at hok
    split at hres
    · rw [← hres] at hok; simp at hok
    subst hres
    refine ⟨o, rfl, rfl, ?_, ?_⟩
    · rw [mutatedCell, defaultedStability_of_falsy hts]
    · intro o'
      have hlt : addr < heap.length := (List.getElem?_eq_some.mp hcell).1
      simp only [readEntries, List.set_set, List.map_append, List.map_cons, List.map_nil]
      rw [List.getLast?_concat]
      rw [List.getElem?_set_eq_of_lt o' hlt]
  | true =>
    simp only [hts] at hres
    split at hres
    · rw [← hres] at hok; simp at hok
    split at hres
    · rw [← hres] at hok; simp at hok
    split at hres
    · rw [← hres] at hok; simp at hok
    split at hres
    · rw [← hres] at hok; simp at hok
    split at hres
    · rw [← hres] at hok; simp at hok
    split at hres
    · rw [← hres] at hok; simp at hok
    subst hres
    refine ⟨o, rfl, rfl, ?_, ?_⟩
    · rw [mutatedCell, ← defaultedStability_of_truthy hts]
    · intro o'
      have hlt : addr < heap.length := (List.getElem?_eq_some.mp hcell).1
      simp only [readEntries, List.set_set, List.map_append, List.map_cons, List.map_nil]
      rw [List.getLast?_concat]
      rw [List.getElem?_set_eq_of_lt o' hlt]

/-- Witness for C10: a concrete successful store-passing declare, with
the registry entry observed through a later external mutation of the
passed object. -/
theorem declareH_ok_aliasing_w :
    heap0[(0 : Nat)]? = some cellGood ∧
    (declareH bh0 heap0 svAll 0 5).1.1.entries = bh0.entries ++ [0] ∧
    (declareH bh0 heap0 svAll 0 5).1.2 = heap0.set 0 (mutatedCell bh0 cellGood 5) ∧
    (readEntries (declareH bh0 heap0 svAll 0 5).1.1
      ((declareH bh0 heap0 svAll 0 5).1.2.set 0 cellMut)).getLast? = some (some cellMut) := by
  obtain ⟨o, h1, h2, h3, h4⟩ := declareH_ok_aliasing bh0 heap0 svAll 0 5 (by rfl)
  have ho : o = cellGood :=
    Option.some.inj (h1.symm.trans (show heap0[(0 : Nat)]? = some cellGood from rfl))
  subst ho
  exact ⟨h1, h2, h3, h4 cellMut⟩

end TcApi
